import Mathlib

/-!
# ConvolutionDemo: the impulse-response handoff and its surroundings

A shallow embedding of `Source/ConvolutionDemo.h`.

* `BufferWithSampleRate`, `BufferTransfer`: the single-slot handoff between the
  thread that decodes an impulse response and the audio thread.
* `ConvolutionDemoDSP`: the effect object with `prepare`, `process`, `reset`
  and `updateParameters`.

The `dsp` module (convolution and reverb engines), the audio format readers and
the asset lookup belong to the framework and are parameters of the model.
-/

namespace ConvolutionDemo

/-! ## Sample data -/

/-- A `float` sample. Samples are only moved around by this code, never computed with. -/
abbrev Sample := Rat

/-- The class `AudioBuffer<float>`: a channel count, a length and the channel data. -/
structure AudioBuffer where
  numChannels : Int
  numSamples : Int
  channels : List (List Sample)
deriving DecidableEq, Repr

/-- A default-constructed `AudioBuffer<float>`, which is also what a buffer holds
after `std::move` took its contents away. -/
def AudioBuffer.empty : AudioBuffer :=
  { numChannels := 0, numSamples := 0, channels := [] }

/-- The struct `BufferWithSampleRate` (lines 179-187): `sampleRate` is a `double`. -/
structure BufferWithSampleRate where
  buffer : AudioBuffer
  sampleRate : Rat
deriving DecidableEq, Repr

/-- The defaulted constructor `BufferWithSampleRate() = default`. -/
def BufferWithSampleRate.default : BufferWithSampleRate :=
  { buffer := AudioBuffer.empty, sampleRate := 0 }

/-! ## BufferTransfer (lines 189-212) -/

/-- The private members of `BufferTransfer`: `buffer` and `newBuffer`. The
`SpinLock mutex` carries no data; what matters of it is whether a `get` acquires
it, which is an input of `get`. -/
structure BufferTransfer where
  buffer : BufferWithSampleRate
  newBuffer : Bool
deriving DecidableEq, Repr

/-- A freshly constructed `BufferTransfer`: `newBuffer = false`. -/
def BufferTransfer.init : BufferTransfer :=
  { buffer := BufferWithSampleRate.default, newBuffer := false }

/-- The method `set`: under the (blocking) scoped lock, `buffer = std::move (p)`
and `newBuffer = true`. -/
def BufferTransfer.set (p : BufferWithSampleRate) (_t : BufferTransfer) : BufferTransfer :=
  { buffer := p, newBuffer := true }

/-- The method `get`. `isLocked` is the outcome of the `ScopedTryLockType`. The
callback receives the stored buffer by reference and may also change the state
`σ` it captured, so it maps the buffer and that state to their new values.
`if (lock.isLocked() && newBuffer) { fn (buffer); newBuffer = false; }` -/
def BufferTransfer.get {σ : Type} (isLocked : Bool)
    (fn : BufferWithSampleRate → σ → BufferWithSampleRate × σ)
    (t : BufferTransfer) (s : σ) : BufferTransfer × σ :=
  if isLocked && t.newBuffer then
    let r := fn t.buffer s
    ({ buffer := r.1, newBuffer := false }, r.2)
  else
    (t, s)

/-- A callback that only writes down what it is called with. -/
def record (buf : BufferWithSampleRate) (log : List BufferWithSampleRate) :
    BufferWithSampleRate × List BufferWithSampleRate :=
  (buf, log ++ [buf])

/-- A run of `set` calls, in order, with no `get` in between. -/
def setAll (ps : List BufferWithSampleRate) (t : BufferTransfer) : BufferTransfer :=
  ps.foldl (fun acc p => acc.set p) t

/-- A run of `get` calls with the given lock outcomes, all with the same callback. -/
def getAll {σ : Type} (fn : BufferWithSampleRate → σ → BufferWithSampleRate × σ) :
    List Bool → BufferTransfer → σ → BufferTransfer × σ
  | [], t, s => (t, s)
  | l :: ls, t, s => getAll fn ls (t.get l fn s).1 (t.get l fn s).2

/-- One call on the handoff: a `set` with its argument or a `get` with the
outcome of its try-lock. -/
inductive Op where
  | set (p : BufferWithSampleRate)
  | get (isLocked : Bool)
deriving DecidableEq, Repr

/-- Runs a sequence of calls; every `get` uses the `record` callback. -/
def run : List Op → BufferTransfer → List BufferWithSampleRate →
    BufferTransfer × List BufferWithSampleRate
  | [], t, log => (t, log)
  | Op.set p :: ops, t, log => run ops (t.set p) log
  | Op.get l :: ops, t, log => run ops (t.get l record log).1 (t.get l record log).2

/-- The number of `set` calls in a sequence of calls. -/
def countSets : List Op → Nat
  | [] => 0
  | Op.set _ :: ops => countSets ops + 1
  | Op.get _ :: ops => countSets ops

/-! ## Framework collaborators

The engines of the `dsp` module are not part of this repository. Their state
types `C` (convolution), `R` (reverb) and the type `B` of an audio block are
parameters, and so are their operations. -/

/-- The struct `dsp::ProcessSpec` handed to `prepare`. -/
structure ProcessSpec where
  sampleRate : Rat
  maximumBlockSize : Nat
  numChannels : Nat
deriving DecidableEq, Repr

/-- The class `ProcessContextReplacing<float>`: the block that is processed in
place and the flag `isBypassed`. -/
structure ProcessContextReplacing (B : Type) where
  block : B
  isBypassed : Bool
deriving DecidableEq, Repr

/-- The enumeration `Convolution::Stereo`. -/
inductive Convolution.Stereo where
  | no
  | yes
deriving DecidableEq, Repr

/-- The enumeration `Convolution::Trim`. -/
inductive Convolution.Trim where
  | no
  | yes
deriving DecidableEq, Repr

/-- The enumeration `Convolution::Normalise`. -/
inductive Convolution.Normalise where
  | no
  | yes
deriving DecidableEq, Repr

/-- The struct `juce::Reverb::Parameters`, with the four members this code assigns. -/
structure Reverb.Parameters where
  roomSize : Rat
  damping : Rat
  wetLevel : Rat
  dryLevel : Rat
deriving DecidableEq, Repr

/-- The operations of `dsp::Convolution` this code calls. `process` works on the
block of its context in place: it returns the new engine state and the new block. -/
structure Convolution (C B : Type) where
  prepare : ProcessSpec → C → C
  loadImpulseResponse : AudioBuffer → Rat → Convolution.Stereo → Convolution.Trim →
    Convolution.Normalise → C → C
  process : ProcessContextReplacing B → C → C × B
  reset : C → C

/-- The operations of `juce::dsp::Reverb`. -/
structure Reverb (R B : Type) where
  prepare : ProcessSpec → R → R
  setParameters : Reverb.Parameters → R → R
  process : ProcessContextReplacing B → R → R × B
  reset : R → R

/-- An asset opened for reading: its bytes. -/
structure InputStream where
  bytes : List Nat
deriving DecidableEq, Repr

/-- The class `AudioFormatReader`: `sampleRate` (`double`), `numChannels`
(`unsigned int`), `lengthInSamples` (`int64`) and `read`, which for a number of
destination channels, a start sample and a number of samples gives the data it
writes into the destination channels. -/
structure AudioFormatReader where
  sampleRate : Rat
  numChannels : Nat
  lengthInSamples : Int
  read : Int → Int → Int → List (List Sample)

/-- The two fallible framework calls of `updateParameters`: `createAssetInputStream`
(null when the asset is missing) and `AudioFormatManager::createReaderFor` after
`registerBasicFormats` (null when no format can decode the stream). -/
structure Assets where
  createAssetInputStream : String → Option InputStream
  createReaderFor : InputStream → Option AudioFormatReader

/-- The conversion `static_cast<int>` to a 32-bit two's complement `int`. -/
def static_cast_int (x : Int) : Int :=
  (x + 2 ^ 31) % 2 ^ 32 - 2 ^ 31

/-! ## The parameter list -/

/-- Modelled from the spec: the class `ChoiceParameter` is declared in
`DSPDemos_Common.h`, which is not among the sources. It holds the list of
choices, the id of the current selection and a label (spec 4.1: "an integer
selection id from a fixed enumerated set"). -/
structure ChoiceParameter where
  choices : List String
  currentSelectedID : Int
  name : String
deriving DecidableEq, Repr

/-- Modelled from the spec: the ids of the choices of a `ChoiceParameter`, numbered
from 1 in the order of the list (spec 4.1: "one bypass value, N asset values";
`DSPDemos_Common.h` is not among the sources). This agrees with the code, where
id 1 stands for the first choice "Bypass" and the cases of the switch run from 2
to 13 for the twelve choices after it. -/
def ChoiceParameter.ids (p : ChoiceParameter) : List Int :=
  (List.range p.choices.length).map (fun i => (i : Int) + 1)

/-- Modelled from the spec: the polymorphic base class `DSPDemoParameterBase` of
`DSPDemos_Common.h` (spec 9: "dynamic downcast from a polymorphic parameter list
to a concrete parameter type"). An object is a `ChoiceParameter` or of another
kind, for which the `dynamic_cast` gives null. -/
inductive DSPDemoParameterBase where
  | choice (p : ChoiceParameter)
  | other (name : String)
deriving DecidableEq, Repr

/-- The member `cabinetParam` as declared on line 226: thirteen choices, initial
id 1, label "Position". -/
def cabinetParam : ChoiceParameter :=
  { choices := ["Bypass", "Front", "Back", "Left", "Right", "Up", "Down", "Left-Up",
      "Right-Up", "Left-Back-Down", "Right-Back-Down", "Left-Back", "Right-Back"],
    currentSelectedID := 1,
    name := "Position" }

/-! ## ConvolutionDemoDSP (lines 57-229) -/

/-- The data members of `ConvolutionDemoDSP`. `parameters` holds the objects the
vector of line 228 points to; initially that is `cabinetParam` alone. -/
structure ConvolutionDemoDSP (C R : Type) where
  sampleRate : Rat
  bypass : Bool
  currentCabinetData : List Nat
  convolution : C
  convolutionHP : C
  reverb : R
  params : Reverb.Parameters
  bufferTransfer : BufferTransfer
  parameters : List DSPDemoParameterBase

/-- The `switch (selectedType)` of lines 114-152: `assetName` starts as `""` and
the cases 2 to 13 assign a file name. -/
def assetName (selectedType : Int) : String :=
  match selectedType with
  | 2 => "front.wav"
  | 3 => "back.wav"
  | 4 => "left.wav"
  | 5 => "right.wav"
  | 6 => "up.wav"
  | 7 => "down.wav"
  | 8 => "left50up60.wav"
  | 9 => "right50up60.wav"
  | 10 => "left140down30.wav"
  | 11 => "right132down30.wav"
  | 12 => "left220.wav"
  | 13 => "right140.wav"
  | _ => ""

/-- Lines 170-172: an `AudioBuffer<float>` of `static_cast<int> (reader->numChannels)`
channels and `static_cast<int> (reader->lengthInSamples)` samples, filled by
`reader->read` from sample 0 on. -/
def readBuffer (reader : AudioFormatReader) : AudioBuffer :=
  let numChannels := static_cast_int reader.numChannels
  let numSamples := static_cast_int reader.lengthInSamples
  { numChannels := numChannels,
    numSamples := numSamples,
    channels := reader.read numChannels 0 numSamples }

/-- The method `updateParameters` (lines 100-176). The first `match` is the
`dynamic_cast<ChoiceParameter*> (parameters[0])`, which gives null unless the
first object of the list is a `ChoiceParameter`. The second component of the
result tells whether a `jassertfalse` was reached. -/
def updateParameters {C R : Type} (env : Assets) (d : ConvolutionDemoDSP C R) :
    ConvolutionDemoDSP C R × Bool :=
  match d.parameters.head? with
  | some (DSPDemoParameterBase.choice cabinetTypeParameter) =>
    if cabinetTypeParameter.currentSelectedID = 1 then
      ({ d with bypass := true }, false)
    else
      let d1 := { d with bypass := false }
      let selectedType := cabinetTypeParameter.currentSelectedID
      match env.createAssetInputStream (assetName selectedType) with
      | none => (d1, true)
      | some assetInputStream =>
        match env.createReaderFor assetInputStream with
        | none => (d1, true)
        | some reader =>
          let buffer := readBuffer reader
          ({ d1 with bufferTransfer :=
              d1.bufferTransfer.set { buffer := buffer, sampleRate := reader.sampleRate } },
            false)
  | _ => (d, true)

/-- The method `prepare` (lines 58-71). -/
def prepare {C R B : Type} (cv : Convolution C B) (rv : Reverb R B) (env : Assets)
    (spec : ProcessSpec) (d : ConvolutionDemoDSP C R) : ConvolutionDemoDSP C R × Bool :=
  let d1 := { d with
    sampleRate := spec.sampleRate,
    convolution := cv.prepare spec d.convolution,
    convolutionHP := cv.prepare spec d.convolutionHP,
    reverb := rv.prepare spec d.reverb }
  let params : Reverb.Parameters :=
    { d1.params with damping := 0.8, dryLevel := 1, roomSize := 0.12, wetLevel := 0.02 }
  let d2 := { d1 with params := params, reverb := rv.setParameters params d1.reverb }
  updateParameters env d2

/-- The lambda handed to `bufferTransfer.get` on lines 77-89: it loads the buffer
into `convolution` with `Stereo::yes`, `Trim::yes`, `Normalise::yes`; the
`std::move` leaves an empty buffer behind in the slot. -/
def loadCallback {C B : Type} (cv : Convolution C B) (buf : BufferWithSampleRate)
    (convolution : C) : BufferWithSampleRate × C :=
  ({ buf with buffer := AudioBuffer.empty },
    cv.loadImpulseResponse buf.buffer buf.sampleRate Convolution.Stereo.yes
      Convolution.Trim.yes Convolution.Normalise.yes convolution)

/-- The method `process` (lines 73-94); `isLocked` is the outcome of the try-lock
of its one `bufferTransfer.get`. The context is passed by value, so the result
is the object and the block as the two stages leave it. -/
def process {C R B : Type} (cv : Convolution C B) (rv : Reverb R B) (isLocked : Bool)
    (context : ProcessContextReplacing B) (d : ConvolutionDemoDSP C R) :
    ConvolutionDemoDSP C R × B :=
  let context1 : ProcessContextReplacing B := { context with isBypassed := d.bypass }
  let probe := d.bufferTransfer.get isLocked (loadCallback cv) d.convolution
  let conv := cv.process context1 probe.2
  let context2 : ProcessContextReplacing B := { context1 with block := conv.2 }
  let rev := rv.process context2 d.reverb
  ({ d with bufferTransfer := probe.1, convolution := conv.1, reverb := rev.1 }, rev.2)

/-- The method `reset` (lines 96-98): `convolution.reset()`. -/
def reset {C R B : Type} (cv : Convolution C B) (d : ConvolutionDemoDSP C R) :
    ConvolutionDemoDSP C R :=
  { d with convolution := cv.reset d.convolution }

/-- Successive `process` calls, each with its try-lock outcome and input block;
gives the final object and the output blocks in order. -/
def processAll {C R B : Type} (cv : Convolution C B) (rv : Reverb R B) :
    List (Bool × ProcessContextReplacing B) → ConvolutionDemoDSP C R →
    ConvolutionDemoDSP C R × List B
  | [], d => (d, [])
  | c :: cs, d =>
    let r := process cv rv c.1 c.2 d
    let rest := processAll cv rv cs r.1
    (rest.1, r.2 :: rest.2)

/-! ## Engines that write down their calls -/

/-- A call made on an engine. -/
inductive Call where
  | prepare (spec : ProcessSpec)
  | loadImpulseResponse (buffer : AudioBuffer) (sampleRate : Rat)
      (stereo : Convolution.Stereo) (trim : Convolution.Trim)
      (normalise : Convolution.Normalise)
  | setParameters (p : Reverb.Parameters)
  | convolutionProcess (isBypassed : Bool)
  | reverbProcess (isBypassed : Bool)
  | reset
deriving DecidableEq, Repr

/-- A convolution engine whose state is the list of calls made on it; a block is
the list of the stages that have processed it. -/
def recordingConvolution : Convolution (List Call) (List Call) :=
  { prepare := fun spec c => c ++ [Call.prepare spec],
    loadImpulseResponse := fun b r s t n c => c ++ [Call.loadImpulseResponse b r s t n],
    process := fun ctx c =>
      (c ++ [Call.convolutionProcess ctx.isBypassed],
        ctx.block ++ [Call.convolutionProcess ctx.isBypassed]),
    reset := fun c => c ++ [Call.reset] }

/-- A reverb engine whose state is the list of calls made on it. -/
def recordingReverb : Reverb (List Call) (List Call) :=
  { prepare := fun spec r => r ++ [Call.prepare spec],
    setParameters := fun p r => r ++ [Call.setParameters p],
    process := fun ctx r =>
      (r ++ [Call.reverbProcess ctx.isBypassed],
        ctx.block ++ [Call.reverbProcess ctx.isBypassed]),
    reset := fun r => r ++ [Call.reset] }

/-! ## Small concrete engines

They honour `isBypassed` by leaving the block alone; their state is the tail
they would still have to play out. -/

/-- A convolution engine on blocks of samples: bypassed it leaves the block as
it is, otherwise it halves every sample and keeps the block as its tail. -/
def demoConvolution : Convolution (List Sample) (List Sample) :=
  { prepare := fun _ _ => [],
    loadImpulseResponse := fun b _ _ _ _ _ => b.channels.flatten,
    process := fun ctx c =>
      if ctx.isBypassed then (c, ctx.block) else (ctx.block, ctx.block.map (fun x => x / 2)),
    reset := fun _ => [] }

/-- A reverb engine on blocks of samples: bypassed it leaves the block as it is,
otherwise it adds 1 to every sample and keeps the incoming block as its tail. -/
def demoReverb : Reverb (List Sample) (List Sample) :=
  { prepare := fun _ _ => [],
    setParameters := fun _ r => r,
    process := fun ctx r =>
      if ctx.isBypassed then (r, ctx.block) else (ctx.block, ctx.block.map (fun x => x + 1)),
    reset := fun _ => [] }

/-! ## Concrete objects -/

/-- An installation without any asset: every lookup and every decode fails. -/
def noAssets : Assets :=
  { createAssetInputStream := fun _ => none,
    createReaderFor := fun _ => none }

/-- A stereo reader of three samples at 44100 Hz. -/
def frontReader : AudioFormatReader :=
  { sampleRate := 44100,
    numChannels := 2,
    lengthInSamples := 3,
    read := fun _ _ _ => [[1, 0, 0], [0, 1, 0]] }

/-- An installation that holds `front.wav` only, and can decode it. -/
def frontOnly : Assets :=
  { createAssetInputStream := fun name => if name = "front.wav" then some ⟨[82, 73]⟩ else none,
    createReaderFor := fun st => if st.bytes = [82, 73] then some frontReader else none }

/-- An installation that holds `front.wav`, but no format decodes it. -/
def frontUndecodable : Assets :=
  { createAssetInputStream := fun name => if name = "front.wav" then some ⟨[0]⟩ else none,
    createReaderFor := fun _ => none }

/-- The reverb parameters that `prepare` assigns. -/
def demoParams : Reverb.Parameters :=
  { roomSize := 0.12, damping := 0.8, wetLevel := 0.02, dryLevel := 1 }

/-- An object in bypass whose selection has just moved to id 2 ("Front"), with
engines that write down their calls and an empty handoff. -/
def bypassedFront : ConvolutionDemoDSP (List Call) (List Call) :=
  { sampleRate := 48000,
    bypass := true,
    currentCabinetData := [],
    convolution := [],
    convolutionHP := [],
    reverb := [],
    params := demoParams,
    bufferTransfer := BufferTransfer.init,
    parameters := [DSPDemoParameterBase.choice { cabinetParam with currentSelectedID := 2 }] }

/-- An object on the small concrete engines, not bypassed, whose selection is the
bypass id 1 and whose handoff holds a pending pair. -/
def demoDSP : ConvolutionDemoDSP (List Sample) (List Sample) :=
  { sampleRate := 48000,
    bypass := false,
    currentCabinetData := [],
    convolution := [],
    convolutionHP := [],
    reverb := [],
    params := demoParams,
    bufferTransfer := { buffer := ⟨⟨1, 2, [[1, 0]]⟩, 44100⟩, newBuffer := true },
    parameters := [DSPDemoParameterBase.choice cabinetParam] }

/-! ## Lemmas on the handoff -/

theorem set_eq (p : BufferWithSampleRate) (t : BufferTransfer) :
    t.set p = { buffer := p, newBuffer := true } := rfl

theorem setAll_append_one (ps : List BufferWithSampleRate) (p : BufferWithSampleRate)
    (t : BufferTransfer) : setAll (ps ++ [p]) t = { buffer := p, newBuffer := true } := by
  simp [setAll, List.foldl_append, BufferTransfer.set]

theorem setAll_eq_last (ps : List BufferWithSampleRate) (h : ps ≠ []) (t : BufferTransfer) :
    setAll ps t = { buffer := ps.getLast h, newBuffer := true } := by
  obtain ⟨qs, q, rfl⟩ : ∃ qs q, ps = qs ++ [q] :=
    ⟨ps.dropLast, ps.getLast h, (List.dropLast_append_getLast h).symm⟩
  rw [setAll_append_one]
  simp

theorem get_pending {σ : Type} (fn : BufferWithSampleRate → σ → BufferWithSampleRate × σ)
    (b : BufferWithSampleRate) (s : σ) :
    BufferTransfer.get true fn { buffer := b, newBuffer := true } s
      = ({ buffer := (fn b s).1, newBuffer := false }, (fn b s).2) := by
  simp [BufferTransfer.get]

theorem get_not_locked {σ : Type} (fn : BufferWithSampleRate → σ → BufferWithSampleRate × σ)
    (t : BufferTransfer) (s : σ) : t.get false fn s = (t, s) := by
  simp [BufferTransfer.get]

theorem get_nothing_new {σ : Type} (l : Bool)
    (fn : BufferWithSampleRate → σ → BufferWithSampleRate × σ)
    (t : BufferTransfer) (s : σ) (h : t.newBuffer = false) : t.get l fn s = (t, s) := by
  simp [BufferTransfer.get, h]

theorem get_locked_clears {σ : Type} (fn : BufferWithSampleRate → σ → BufferWithSampleRate × σ)
    (t : BufferTransfer) (s : σ) : (t.get true fn s).1.newBuffer = false := by
  cases hn : t.newBuffer <;> simp [BufferTransfer.get, hn]

theorem getAll_nothing_new {σ : Type} (fn : BufferWithSampleRate → σ → BufferWithSampleRate × σ)
    (ls : List Bool) (t : BufferTransfer) (s : σ) (h : t.newBuffer = false) :
    getAll fn ls t s = (t, s) := by
  induction ls with
  | nil => rfl
  | cons l ls ih => simp [getAll, get_nothing_new l fn t s h, ih]

theorem getAll_not_locked {σ : Type} (fn : BufferWithSampleRate → σ → BufferWithSampleRate × σ)
    (n : Nat) (t : BufferTransfer) (s : σ) :
    getAll fn (List.replicate n false) t s = (t, s) := by
  induction n with
  | zero => rfl
  | succ n ih => simp [List.replicate_succ, getAll, get_not_locked, ih]

theorem run_append (ops1 ops2 : List Op) (t : BufferTransfer) (log : List BufferWithSampleRate) :
    run (ops1 ++ ops2) t log = run ops2 (run ops1 t log).1 (run ops1 t log).2 := by
  induction ops1 generalizing t log with
  | nil => rfl
  | cons op ops ih => cases op <;> simp [run, ih]

theorem run_sets (ps : List BufferWithSampleRate) (t : BufferTransfer)
    (log : List BufferWithSampleRate) : run (ps.map Op.set) t log = (setAll ps t, log) := by
  induction ps generalizing t with
  | nil => rfl
  | cons p ps ih => simp [run, ih, setAll]

theorem run_gets (ls : List Bool) (t : BufferTransfer) (log : List BufferWithSampleRate) :
    run (ls.map Op.get) t log = getAll record ls t log := by
  induction ls generalizing t log with
  | nil => rfl
  | cons l ls ih => simp [run, getAll, ih]

theorem get_record_length (l : Bool) (t : BufferTransfer) (log : List BufferWithSampleRate) :
    (t.get l record log).2.length + (if (t.get l record log).1.newBuffer then 1 else 0)
      ≤ log.length + (if t.newBuffer then 1 else 0) := by
  cases l <;> cases hn : t.newBuffer <;> simp [BufferTransfer.get, hn, record]

theorem run_length_le (ops : List Op) (t : BufferTransfer) (log : List BufferWithSampleRate) :
    (run ops t log).2.length ≤ log.length + countSets ops + (if t.newBuffer then 1 else 0) := by
  induction ops generalizing t log with
  | nil => simp [run, countSets]
  | cons op ops ih =>
    cases op with
    | set p =>
      have h := ih (t.set p) log
      simp only [run, countSets]
      simp only [BufferTransfer.set] at h ⊢
      split <;> simp at h ⊢ <;> omega
    | get l =>
      have h := ih (t.get l record log).1 (t.get l record log).2
      have h2 := get_record_length l t log
      simp only [run, countSets]
      omega


/-! ## The handoff: last write wins, at most one delivery, no-op when nothing can be delivered -/

/-- C1. Last write wins: from any state of the handoff, after a non-empty run of
`set` calls with no `get` in between, a `get` that acquires the lock calls its
callback once, on the pair of the last `set`, whatever the callback is; with the
writing-down callback the log grows by that one pair, so no earlier pair of the
run reaches a callback. The same holds when `get` calls that fail to acquire the
lock come before the one that acquires it. -/
theorem last_write_wins (t : BufferTransfer) (ps : List BufferWithSampleRate) (h : ps ≠ []) :
    (∀ (σ : Type) (fn : BufferWithSampleRate → σ → BufferWithSampleRate × σ) (s : σ),
        (setAll ps t).get true fn s
          = ({ buffer := (fn (ps.getLast h) s).1, newBuffer := false },
              (fn (ps.getLast h) s).2))
      ∧ (∀ log : List BufferWithSampleRate,
          ((setAll ps t).get true record log).2 = log ++ [ps.getLast h])
      ∧ (∀ n : Nat,
          run (ps.map Op.set ++ (List.replicate n false).map Op.get ++ [Op.get true]) t []
            = ({ buffer := ps.getLast h, newBuffer := false }, [ps.getLast h])) := by
  refine ⟨?_, ?_, ?_⟩
  · intro σ fn s
    rw [setAll_eq_last ps h t, get_pending]
  · intro log
    rw [setAll_eq_last ps h t, get_pending]
    rfl
  · intro n
    rw [run_append, run_append, run_sets, run_gets, getAll_not_locked, setAll_eq_last ps h t]
    simp [run, BufferTransfer.get, record]

/-- Witness of C1: three pairs are published onto a slot that still holds an
older pending pair; the next `get` delivers the third one only. -/
theorem last_write_wins_witness :
    [(⟨⟨1, 1, [[1]]⟩, 44100⟩ : BufferWithSampleRate), ⟨⟨1, 1, [[2]]⟩, 48000⟩,
        ⟨⟨2, 1, [[3], [4]]⟩, 96000⟩] ≠ []
      ∧ run ([(⟨⟨1, 1, [[1]]⟩, 44100⟩ : BufferWithSampleRate), ⟨⟨1, 1, [[2]]⟩, 48000⟩,
              ⟨⟨2, 1, [[3], [4]]⟩, 96000⟩].map Op.set
            ++ (List.replicate 2 false).map Op.get ++ [Op.get true])
          { buffer := ⟨⟨1, 1, [[9]]⟩, 8000⟩, newBuffer := true } []
        = ({ buffer := ⟨⟨2, 1, [[3], [4]]⟩, 96000⟩, newBuffer := false },
            [⟨⟨2, 1, [[3], [4]]⟩, 96000⟩]) :=
  ⟨by simp,
    (last_write_wins { buffer := ⟨⟨1, 1, [[9]]⟩, 8000⟩, newBuffer := true }
      [⟨⟨1, 1, [[1]]⟩, 44100⟩, ⟨⟨1, 1, [[2]]⟩, 48000⟩, ⟨⟨2, 1, [[3], [4]]⟩, 96000⟩]
      (by simp)).2.2 2⟩

/-- C2. A published buffer is consumed at most once: a `get` that acquired the
lock leaves `newBuffer` false; the `get` calls after it, whatever their lock
outcomes, call no callback and change nothing; in any sequence of calls the
callback runs at most once per `set` (plus once for a pair pending at the
start); and `set B1; get; (more gets); set B2; set B3; get; (more gets)` delivers
`B1` once, then `B3` once, and never `B2`. -/
theorem consumed_at_most_once :
    (∀ (σ : Type) (fn : BufferWithSampleRate → σ → BufferWithSampleRate × σ)
        (t : BufferTransfer) (s : σ), (t.get true fn s).1.newBuffer = false)
      ∧ (∀ (σ τ : Type) (fn : BufferWithSampleRate → σ → BufferWithSampleRate × σ)
          (fn2 : BufferWithSampleRate → τ → BufferWithSampleRate × τ)
          (t : BufferTransfer) (s : σ) (ls : List Bool) (s2 : τ),
          getAll fn2 ls (t.get true fn s).1 s2 = ((t.get true fn s).1, s2))
      ∧ (∀ (ops : List Op) (t : BufferTransfer),
          (run ops t []).2.length ≤ countSets ops + (if t.newBuffer then 1 else 0))
      ∧ (∀ (t : BufferTransfer) (B1 B2 B3 : BufferWithSampleRate) (ls1 ls2 : List Bool),
          run ([Op.set B1, Op.get true] ++ ls1.map Op.get
                ++ [Op.set B2, Op.set B3, Op.get true] ++ ls2.map Op.get) t []
            = ({ buffer := B3, newBuffer := false }, [B1, B3])) := by
  refine ⟨?_, ?_, ?_, ?_⟩
  · intro σ fn t s
    exact get_locked_clears fn t s
  · intro σ τ fn fn2 t s ls s2
    exact getAll_nothing_new fn2 ls _ s2 (get_locked_clears fn t s)
  · intro ops t
    have h := run_length_le ops t []
    simpa using h
  · intro t B1 B2 B3 ls1 ls2
    simp only [run_append, run_gets]
    have h1 : run [Op.set B1, Op.get true] t []
        = ({ buffer := B1, newBuffer := false }, [B1]) := by
      simp [run, BufferTransfer.get, BufferTransfer.set, record]
    rw [h1]
    simp only []
    rw [getAll_nothing_new record ls1 _ _ rfl]
    have h2 : run [Op.set B2, Op.set B3, Op.get true] { buffer := B1, newBuffer := false } [B1]
        = ({ buffer := B3, newBuffer := false }, [B1, B3]) := by
      simp [run, BufferTransfer.get, BufferTransfer.set, record]
    simp only [h2]
    rw [getAll_nothing_new record ls2 _ _ rfl]

/-- C3. `get` is a no-op whenever it cannot deliver: on a freshly constructed
handoff, on any handoff whose `newBuffer` is false (in particular right after a
`get` that acquired the lock), and whenever the try-lock fails, the callback is
not called (the captured state is returned as it was) and buffer, sample rate and
flag keep their values; the same holds for any number of such calls in a row, and
a pair that was pending when the try-lock failed is still pending. -/
theorem get_is_noop_when_nothing_to_deliver
    (σ : Type) (fn : BufferWithSampleRate → σ → BufferWithSampleRate × σ) (s : σ) :
    (∀ l : Bool, BufferTransfer.init.get l fn s = (BufferTransfer.init, s))
      ∧ (∀ (t : BufferTransfer) (l : Bool), t.newBuffer = false → t.get l fn s = (t, s))
      ∧ (∀ (τ : Type) (fn0 : BufferWithSampleRate → τ → BufferWithSampleRate × τ)
          (t : BufferTransfer) (s0 : τ) (l : Bool),
          (t.get true fn0 s0).1.get l fn s = ((t.get true fn0 s0).1, s))
      ∧ (∀ t : BufferTransfer, t.get false fn s = (t, s))
      ∧ (∀ (t : BufferTransfer) (ls : List Bool), t.newBuffer = false →
          getAll fn ls t s = (t, s))
      ∧ (∀ (t : BufferTransfer) (n : Nat), getAll fn (List.replicate n false) t s = (t, s))
      ∧ (∀ (p : BufferWithSampleRate) (t : BufferTransfer) (n : Nat),
          (getAll fn (List.replicate n false) (t.set p) s).1
            = { buffer := p, newBuffer := true }) := by
  refine ⟨?_, ?_, ?_, ?_, ?_, ?_, ?_⟩
  · intro l
    exact get_nothing_new l fn _ s rfl
  · intro t l h
    exact get_nothing_new l fn t s h
  · intro τ fn0 t s0 l
    exact get_nothing_new l fn _ s (get_locked_clears fn0 t s0)
  · intro t
    exact get_not_locked fn t s
  · intro t ls h
    exact getAll_nothing_new fn ls t s h
  · intro t n
    exact getAll_not_locked fn n t s
  · intro p t n
    rw [getAll_not_locked]
    rfl

/-- Witness of C3: a consumed slot, probed with and without the lock, stays as it
is and the log stays empty. -/
theorem get_is_noop_when_nothing_to_deliver_witness :
    (BufferTransfer.mk ⟨⟨1, 2, [[5, 6]]⟩, 48000⟩ false).newBuffer = false
      ∧ (BufferTransfer.mk ⟨⟨1, 2, [[5, 6]]⟩, 48000⟩ false).get true record []
          = (BufferTransfer.mk ⟨⟨1, 2, [[5, 6]]⟩, 48000⟩ false, [])
      ∧ getAll record [true, false, true] (BufferTransfer.mk ⟨⟨1, 2, [[5, 6]]⟩, 48000⟩ false) []
          = (BufferTransfer.mk ⟨⟨1, 2, [[5, 6]]⟩, 48000⟩ false, []) :=
  ⟨rfl,
    (get_is_noop_when_nothing_to_deliver _ record []).2.1 _ true rfl,
    (get_is_noop_when_nothing_to_deliver _ record []).2.2.2.2.1 _ [true, false, true] rfl⟩


/-! ## Lemmas on `updateParameters` and `process` -/

theorem updateParameters_bypass {C R : Type} (env : Assets) (d : ConvolutionDemoDSP C R)
    (p : ChoiceParameter) (rest : List DSPDemoParameterBase)
    (hp : d.parameters = DSPDemoParameterBase.choice p :: rest)
    (hid : p.currentSelectedID = 1) :
    updateParameters env d = ({ d with bypass := true }, false) := by
  simp [updateParameters, hp, hid]

theorem updateParameters_missing {C R : Type} (env : Assets) (d : ConvolutionDemoDSP C R)
    (p : ChoiceParameter) (rest : List DSPDemoParameterBase)
    (hp : d.parameters = DSPDemoParameterBase.choice p :: rest)
    (hid : p.currentSelectedID ≠ 1)
    (hs : env.createAssetInputStream (assetName p.currentSelectedID) = none) :
    updateParameters env d = ({ d with bypass := false }, true) := by
  simp [updateParameters, hp, hid, hs]

theorem updateParameters_undecodable {C R : Type} (env : Assets) (d : ConvolutionDemoDSP C R)
    (p : ChoiceParameter) (rest : List DSPDemoParameterBase) (st : InputStream)
    (hp : d.parameters = DSPDemoParameterBase.choice p :: rest)
    (hid : p.currentSelectedID ≠ 1)
    (hs : env.createAssetInputStream (assetName p.currentSelectedID) = some st)
    (hr : env.createReaderFor st = none) :
    updateParameters env d = ({ d with bypass := false }, true) := by
  simp [updateParameters, hp, hid, hs, hr]

theorem updateParameters_decoded {C R : Type} (env : Assets) (d : ConvolutionDemoDSP C R)
    (p : ChoiceParameter) (rest : List DSPDemoParameterBase) (st : InputStream)
    (reader : AudioFormatReader)
    (hp : d.parameters = DSPDemoParameterBase.choice p :: rest)
    (hid : p.currentSelectedID ≠ 1)
    (hs : env.createAssetInputStream (assetName p.currentSelectedID) = some st)
    (hr : env.createReaderFor st = some reader) :
    updateParameters env d
      = ({ d with
            bypass := false,
            bufferTransfer :=
              d.bufferTransfer.set
                { buffer := readBuffer reader, sampleRate := reader.sampleRate } },
          false) := by
  simp [updateParameters, hp, hid, hs, hr]

theorem updateParameters_engines {C R : Type} (env : Assets) (d : ConvolutionDemoDSP C R) :
    (updateParameters env d).1.convolution = d.convolution
      ∧ (updateParameters env d).1.convolutionHP = d.convolutionHP
      ∧ (updateParameters env d).1.reverb = d.reverb
      ∧ (updateParameters env d).1.params = d.params
      ∧ (updateParameters env d).1.sampleRate = d.sampleRate := by
  rcases hp : d.parameters with _ | ⟨x, rest⟩
  · simp [updateParameters, hp]
  · cases x with
    | other n => simp [updateParameters, hp]
    | choice p =>
      by_cases hid : p.currentSelectedID = 1
      · rw [updateParameters_bypass env d p rest hp hid]
        simp
      · rcases hs : env.createAssetInputStream (assetName p.currentSelectedID) with _ | st
        · rw [updateParameters_missing env d p rest hp hid hs]
          simp
        · rcases hr : env.createReaderFor st with _ | reader
          · rw [updateParameters_undecodable env d p rest st hp hid hs hr]
            simp
          · rw [updateParameters_decoded env d p rest st reader hp hid hs hr]
            simp

theorem static_cast_int_of_fits (x : Int) (h0 : -(2 ^ 31) ≤ x) (h1 : x < 2 ^ 31) :
    static_cast_int x = x := by
  unfold static_cast_int
  omega

theorem process_bypass {C R B : Type} (cv : Convolution C B) (rv : Reverb R B) (l : Bool)
    (ctx : ProcessContextReplacing B) (d : ConvolutionDemoDSP C R) :
    (process cv rv l ctx d).1.bypass = d.bypass := rfl

theorem process_pass_through {C R B : Type} (cv : Convolution C B) (rv : Reverb R B)
    (hcv : ∀ (ctx : ProcessContextReplacing B) (c : C),
      ctx.isBypassed = true → (cv.process ctx c).2 = ctx.block)
    (hrv : ∀ (ctx : ProcessContextReplacing B) (r : R),
      ctx.isBypassed = true → (rv.process ctx r).2 = ctx.block)
    (l : Bool) (ctx : ProcessContextReplacing B) (d : ConvolutionDemoDSP C R)
    (hb : d.bypass = true) :
    (process cv rv l ctx d).2 = ctx.block := by
  simp only [process, hb]
  rw [hrv _ _ rfl, hcv _ _ rfl]

theorem processAll_pass_through {C R B : Type} (cv : Convolution C B) (rv : Reverb R B)
    (hcv : ∀ (ctx : ProcessContextReplacing B) (c : C),
      ctx.isBypassed = true → (cv.process ctx c).2 = ctx.block)
    (hrv : ∀ (ctx : ProcessContextReplacing B) (r : R),
      ctx.isBypassed = true → (rv.process ctx r).2 = ctx.block)
    (calls : List (Bool × ProcessContextReplacing B)) (d : ConvolutionDemoDSP C R)
    (hb : d.bypass = true) :
    (processAll cv rv calls d).2 = calls.map (fun c => c.2.block)
      ∧ (processAll cv rv calls d).1.bypass = true := by
  induction calls generalizing d with
  | nil => exact ⟨rfl, hb⟩
  | cons c cs ih =>
    have h := ih (process cv rv c.1 c.2 d).1 (by rw [process_bypass]; exact hb)
    simp only [processAll, List.map_cons]
    exact ⟨by rw [h.1, process_pass_through cv rv hcv hrv c.1 c.2 d hb], h.2⟩

theorem process_recorded_block (l : Bool) (ctx : ProcessContextReplacing (List Call))
    (d : ConvolutionDemoDSP (List Call) (List Call)) :
    (process recordingConvolution recordingReverb l ctx d).2
      = ctx.block ++ [Call.convolutionProcess d.bypass, Call.reverbProcess d.bypass] := by
  simp [process, recordingConvolution, recordingReverb]


theorem processAll_recorded_blocks (calls : List (Bool × ProcessContextReplacing (List Call)))
    (d : ConvolutionDemoDSP (List Call) (List Call)) :
    (processAll recordingConvolution recordingReverb calls d).2
      = calls.map (fun c =>
          c.2.block ++ [Call.convolutionProcess d.bypass, Call.reverbProcess d.bypass]) := by
  induction calls generalizing d with
  | nil => rfl
  | cons c cs ih =>
    simp only [processAll, List.map_cons]
    rw [ih, process_recorded_block, process_bypass]

theorem process_delivered {C R B : Type} (cv : Convolution C B) (rv : Reverb R B)
    (context : ProcessContextReplacing B) (d : ConvolutionDemoDSP C R)
    (p : BufferWithSampleRate) (hp : d.bufferTransfer = { buffer := p, newBuffer := true }) :
    (process cv rv true context d).1.convolution
        = (cv.process { block := context.block, isBypassed := d.bypass }
            (cv.loadImpulseResponse p.buffer p.sampleRate Convolution.Stereo.yes
              Convolution.Trim.yes Convolution.Normalise.yes d.convolution)).1
      ∧ (process cv rv true context d).1.bufferTransfer
        = { buffer := { buffer := AudioBuffer.empty, sampleRate := p.sampleRate },
            newBuffer := false }
      ∧ (process cv rv true context d).2
        = (rv.process
            { block := (cv.process { block := context.block, isBypassed := d.bypass }
                (cv.loadImpulseResponse p.buffer p.sampleRate Convolution.Stereo.yes
                  Convolution.Trim.yes Convolution.Normalise.yes d.convolution)).2,
              isBypassed := d.bypass } d.reverb).2 := by
  simp [process, hp, BufferTransfer.get, loadCallback]

theorem process_not_delivered {C R B : Type} (cv : Convolution C B) (rv : Reverb R B)
    (isLocked : Bool) (context : ProcessContextReplacing B) (d : ConvolutionDemoDSP C R)
    (h : isLocked = false ∨ d.bufferTransfer.newBuffer = false) :
    (process cv rv isLocked context d).1.convolution
        = (cv.process { block := context.block, isBypassed := d.bypass } d.convolution).1
      ∧ (process cv rv isLocked context d).1.bufferTransfer = d.bufferTransfer
      ∧ (process cv rv isLocked context d).2
        = (rv.process
            { block := (cv.process { block := context.block, isBypassed := d.bypass }
                d.convolution).2,
              isBypassed := d.bypass } d.reverb).2 := by
  have hg : d.bufferTransfer.get isLocked (loadCallback cv) d.convolution
      = (d.bufferTransfer, d.convolution) := by
    rcases h with h | h
    · subst h
      exact get_not_locked _ _ _
    · exact get_nothing_new _ _ _ _ h
  simp [process, hg]

/-! ## updateParameters on a missing or undecodable asset -/

/-- C4, counterexample. The object is in bypass, the selection is id 2 and
`front.wav` is missing: `updateParameters` returns with `bypass` false, so the
bypass flag is not what it was before the call. -/
theorem missing_asset_clears_bypass :
    bypassedFront.parameters
        = [DSPDemoParameterBase.choice { cabinetParam with currentSelectedID := 2 }]
      ∧ noAssets.createAssetInputStream (assetName 2) = none
      ∧ bypassedFront.bypass = true
      ∧ (updateParameters noAssets bypassedFront).1.bypass = false
      ∧ (updateParameters noAssets bypassedFront).1.bypass ≠ bypassedFront.bypass := by
  refine ⟨rfl, rfl, rfl, ?_, ?_⟩
  · rw [updateParameters_missing noAssets bypassedFront _ [] rfl (by decide) rfl]
  · rw [updateParameters_missing noAssets bypassedFront _ [] rfl (by decide) rfl]
    simp [bypassedFront]

/-- C4, amended. For every prior state and every selection id other than 1 whose
asset is missing or cannot be decoded, `updateParameters` returns (having reached
a `jassertfalse`) with the handoff slot, both convolution engines, the reverb, its
parameters and the sample rate as before the call, and with `bypass` false; the
whole object is as before when `bypass` was false already. -/
theorem missing_asset_keeps_slot_and_engines {C R : Type} (env : Assets)
    (d : ConvolutionDemoDSP C R) (p : ChoiceParameter) (rest : List DSPDemoParameterBase)
    (hp : d.parameters = DSPDemoParameterBase.choice p :: rest)
    (hid : p.currentSelectedID ≠ 1)
    (hfail : env.createAssetInputStream (assetName p.currentSelectedID) = none
      ∨ ∃ st, env.createAssetInputStream (assetName p.currentSelectedID) = some st
          ∧ env.createReaderFor st = none) :
    (updateParameters env d).2 = true
      ∧ (updateParameters env d).1.bypass = false
      ∧ (updateParameters env d).1.bufferTransfer = d.bufferTransfer
      ∧ (updateParameters env d).1.convolution = d.convolution
      ∧ (updateParameters env d).1.convolutionHP = d.convolutionHP
      ∧ (updateParameters env d).1.reverb = d.reverb
      ∧ (updateParameters env d).1.params = d.params
      ∧ (updateParameters env d).1.sampleRate = d.sampleRate
      ∧ (updateParameters env d).1.parameters = d.parameters
      ∧ (d.bypass = false → (updateParameters env d).1 = d) := by
  have h : updateParameters env d = ({ d with bypass := false }, true) := by
    rcases hfail with hs | ⟨st, hs, hr⟩
    · exact updateParameters_missing env d p rest hp hid hs
    · exact updateParameters_undecodable env d p rest st hp hid hs hr
  rw [h]
  refine ⟨rfl, rfl, rfl, rfl, rfl, rfl, rfl, rfl, rfl, ?_⟩
  intro hb
  cases d
  simp_all

/-- Witness of the amended C4: an object that is not bypassed and holds a pending
pair, with the selection on id 2 whose asset exists but cannot be decoded, comes
back as it was. -/
theorem missing_asset_keeps_slot_and_engines_witness :
    frontUndecodable.createAssetInputStream (assetName 2) = some ⟨[0]⟩
      ∧ frontUndecodable.createReaderFor ⟨[0]⟩ = none
      ∧ (updateParameters frontUndecodable
          { bypassedFront with
            bypass := false,
            bufferTransfer := { buffer := ⟨⟨1, 1, [[7]]⟩, 48000⟩, newBuffer := true } }).1.bufferTransfer
        = { buffer := ⟨⟨1, 1, [[7]]⟩, 48000⟩, newBuffer := true }
      ∧ (updateParameters frontUndecodable
          { bypassedFront with
            bypass := false,
            bufferTransfer := { buffer := ⟨⟨1, 1, [[7]]⟩, 48000⟩, newBuffer := true } }).1.bypass
        = false :=
  ⟨rfl, rfl,
    (missing_asset_keeps_slot_and_engines frontUndecodable
      { bypassedFront with
        bypass := false,
        bufferTransfer := { buffer := ⟨⟨1, 1, [[7]]⟩, 48000⟩, newBuffer := true } }
      { cabinetParam with currentSelectedID := 2 } [] rfl (by decide)
      (Or.inr ⟨⟨[0]⟩, rfl, rfl⟩)).2.2.1,
    (missing_asset_keeps_slot_and_engines frontUndecodable
      { bypassedFront with
        bypass := false,
        bufferTransfer := { buffer := ⟨⟨1, 1, [[7]]⟩, 48000⟩, newBuffer := true } }
      { cabinetParam with currentSelectedID := 2 } [] rfl (by decide)
      (Or.inr ⟨⟨[0]⟩, rfl, rfl⟩)).2.1⟩


/-! ## Bypass -/

/-- C5. Selecting the bypass id makes `process` a pass-through: when the selected
id is 1, `updateParameters` sets `bypass` (and leaves the handoff alone, pending
pair or not); from then on every `process` call hands `isBypassed = true` to the
convolution stage and to the reverb stage, whatever the try-lock gives; hence,
for engines that leave a bypassed block as it is, every output block is equal to
its input block. -/
theorem bypass_id_passes_blocks_through {C R B : Type}
    (cv : Convolution C B) (rv : Reverb R B)
    (hcv : ∀ (ctx : ProcessContextReplacing B) (c : C),
      ctx.isBypassed = true → (cv.process ctx c).2 = ctx.block)
    (hrv : ∀ (ctx : ProcessContextReplacing B) (r : R),
      ctx.isBypassed = true → (rv.process ctx r).2 = ctx.block)
    (env : Assets) (d : ConvolutionDemoDSP C R)
    (p : ChoiceParameter) (rest : List DSPDemoParameterBase)
    (hp : d.parameters = DSPDemoParameterBase.choice p :: rest)
    (hid : p.currentSelectedID = 1) :
    (updateParameters env d).1.bypass = true
      ∧ (updateParameters env d).1.bufferTransfer = d.bufferTransfer
      ∧ (∀ (l : Bool) (ctx : ProcessContextReplacing B),
          (process cv rv l ctx (updateParameters env d).1).2 = ctx.block
            ∧ (process cv rv l ctx (updateParameters env d).1).1.bypass = true)
      ∧ (∀ calls : List (Bool × ProcessContextReplacing B),
          (processAll cv rv calls (updateParameters env d).1).2
            = calls.map (fun c => c.2.block))
      ∧ (∀ (e : ConvolutionDemoDSP (List Call) (List Call)),
          e.parameters = DSPDemoParameterBase.choice p :: rest →
          ∀ calls : List (Bool × ProcessContextReplacing (List Call)),
            (processAll recordingConvolution recordingReverb calls
                (updateParameters env e).1).2
              = calls.map (fun c =>
                  c.2.block ++ [Call.convolutionProcess true, Call.reverbProcess true])) := by
  have hb : (updateParameters env d).1.bypass = true := by
    rw [updateParameters_bypass env d p rest hp hid]
  refine ⟨hb, ?_, ?_, ?_, ?_⟩
  · rw [updateParameters_bypass env d p rest hp hid]
  · intro l ctx
    exact ⟨process_pass_through cv rv hcv hrv l ctx _ hb, hb⟩
  · intro calls
    exact (processAll_pass_through cv rv hcv hrv calls _ hb).1
  · intro e he calls
    rw [processAll_recorded_blocks, updateParameters_bypass env e p rest he hid]

/-- Witness of C5: the selection goes to id 1 on an object that was not bypassed
and holds a pending pair; two blocks go through unchanged, the first with the
lock acquired (the pending pair is loaded) and the second without. -/
theorem bypass_id_passes_blocks_through_witness :
    cabinetParam.currentSelectedID = 1
      ∧ demoDSP.bufferTransfer.newBuffer = true
      ∧ (updateParameters noAssets demoDSP).1.bypass = true
      ∧ (processAll demoConvolution demoReverb
            [(true, ⟨[1, 2], false⟩), (false, ⟨[3], false⟩)]
            (updateParameters noAssets demoDSP).1).2
          = [[1, 2], [3]] :=
  ⟨rfl, rfl,
    (bypass_id_passes_blocks_through demoConvolution demoReverb
      (by intro ctx c h; simp [demoConvolution, h])
      (by intro ctx r h; simp [demoReverb, h])
      noAssets demoDSP cabinetParam [] rfl rfl).1,
    (bypass_id_passes_blocks_through demoConvolution demoReverb
      (by intro ctx c h; simp [demoConvolution, h])
      (by intro ctx r h; simp [demoReverb, h])
      noAssets demoDSP cabinetParam [] rfl rfl).2.2.2.1
      [(true, ⟨[1, 2], false⟩), (false, ⟨[3], false⟩)]⟩

/-! ## reset -/

/-- C6, the code at a failing input. `reset` calls `convolution.reset()` and
nothing else: for all engines the reverb state (as the second convolution
engine, the sample rate, the bypass flag, the reverb parameters, the handoff and
the parameter list) is the same after `reset` as before. On the small concrete
engines, after one block `[2, 4]` has been processed the reverb holds the tail
`[1, 2]`; `reset` empties the convolution stage but the reverb still holds
`[1, 2]`, where the reverb engine's own `reset` would leave `[]`. With the
engines that write down their calls, `reset` adds a `reset` call to the
convolution stage and no call to the reverb stage, whereas `prepare` does reach
the reverb stage (`prepare`, then `setParameters`). -/
theorem reset_does_not_clear_reverb :
    (∀ (C R B : Type) (cv : Convolution C B) (d : ConvolutionDemoDSP C R),
        (reset cv d).convolution = cv.reset d.convolution
          ∧ (reset cv d).reverb = d.reverb
          ∧ (reset cv d).convolutionHP = d.convolutionHP
          ∧ (reset cv d).sampleRate = d.sampleRate
          ∧ (reset cv d).bypass = d.bypass
          ∧ (reset cv d).params = d.params
          ∧ (reset cv d).bufferTransfer = d.bufferTransfer
          ∧ (reset cv d).parameters = d.parameters)
      ∧ (process demoConvolution demoReverb true ⟨[2, 4], false⟩ demoDSP).1.convolution = [2, 4]
      ∧ (process demoConvolution demoReverb true ⟨[2, 4], false⟩ demoDSP).1.reverb = [1, 2]
      ∧ (reset demoConvolution
          (process demoConvolution demoReverb true ⟨[2, 4], false⟩ demoDSP).1).convolution = []
      ∧ (reset demoConvolution
          (process demoConvolution demoReverb true ⟨[2, 4], false⟩ demoDSP).1).reverb = [1, 2]
      ∧ demoReverb.reset [1, 2] = []
      ∧ (reset recordingConvolution
          (process recordingConvolution recordingReverb true ⟨[], false⟩ bypassedFront).1).convolution
        = [Call.convolutionProcess true, Call.reset]
      ∧ (reset recordingConvolution
          (process recordingConvolution recordingReverb true ⟨[], false⟩ bypassedFront).1).reverb
        = [Call.reverbProcess true]
      ∧ (prepare recordingConvolution recordingReverb noAssets ⟨48000, 512, 2⟩
          bypassedFront).1.reverb
        = [Call.prepare ⟨48000, 512, 2⟩, Call.setParameters demoParams] := by
  refine ⟨?_, ?_, ?_, ?_, ?_, rfl, ?_, ?_, ?_⟩
  · intro C R B cv d
    exact ⟨rfl, rfl, rfl, rfl, rfl, rfl, rfl, rfl⟩
  · simp [process, demoConvolution, demoDSP, BufferTransfer.get, loadCallback]
  · simp [process, demoConvolution, demoReverb, demoDSP, BufferTransfer.get, loadCallback]
    norm_num
  · simp [reset, demoConvolution]
  · simp [reset, process, demoConvolution, demoReverb, demoDSP, BufferTransfer.get,
      loadCallback]
    norm_num
  · simp [reset, process, recordingConvolution, bypassedFront, BufferTransfer.get,
      BufferTransfer.init]
  · simp [reset, process, recordingReverb, bypassedFront]
  · rw [prepare, (updateParameters_engines noAssets _).2.2.1]
    simp [recordingReverb, bypassedFront, demoParams]


/-! ## process -/

/-- C7. A `process` call probes the handoff once, before any processing: the slot
it leaves is the slot after one `get` with the one try-lock outcome of the call.
If that probe delivers a pending pair, this pair is loaded into the convolution
stage with `Stereo::yes`, `Trim::yes`, `Normalise::yes` and the block is
processed by the engine so loaded; if it delivers nothing (lock not acquired or
nothing new) nothing is loaded, the slot is as before and there is no second
probe. The reverb stage then gets the block as the convolution stage left it.
With the engines that write down their calls: the convolution stage sees the load
followed by its `process`, and the block was processed by the convolution stage
first and the reverb stage second. -/
theorem process_probes_once_then_convolves_then_reverberates {C R B : Type}
    (cv : Convolution C B) (rv : Reverb R B) (isLocked : Bool)
    (context : ProcessContextReplacing B) (d : ConvolutionDemoDSP C R) :
    (process cv rv isLocked context d).1.bufferTransfer
        = (d.bufferTransfer.get isLocked (loadCallback cv) d.convolution).1
      ∧ (∀ p : BufferWithSampleRate,
          d.bufferTransfer = { buffer := p, newBuffer := true } →
          (process cv rv true context d).1.convolution
              = (cv.process { block := context.block, isBypassed := d.bypass }
                  (cv.loadImpulseResponse p.buffer p.sampleRate Convolution.Stereo.yes
                    Convolution.Trim.yes Convolution.Normalise.yes d.convolution)).1
            ∧ (process cv rv true context d).1.bufferTransfer.newBuffer = false
            ∧ (process cv rv true context d).2
              = (rv.process
                  { block := (cv.process { block := context.block, isBypassed := d.bypass }
                      (cv.loadImpulseResponse p.buffer p.sampleRate Convolution.Stereo.yes
                        Convolution.Trim.yes Convolution.Normalise.yes d.convolution)).2,
                    isBypassed := d.bypass } d.reverb).2)
      ∧ ((isLocked = false ∨ d.bufferTransfer.newBuffer = false) →
          (process cv rv isLocked context d).1.convolution
              = (cv.process { block := context.block, isBypassed := d.bypass } d.convolution).1
            ∧ (process cv rv isLocked context d).1.bufferTransfer = d.bufferTransfer
            ∧ (process cv rv isLocked context d).2
              = (rv.process
                  { block := (cv.process { block := context.block, isBypassed := d.bypass }
                      d.convolution).2,
                    isBypassed := d.bypass } d.reverb).2)
      ∧ (∀ (e : ConvolutionDemoDSP (List Call) (List Call))
          (ctx : ProcessContextReplacing (List Call)) (p : BufferWithSampleRate),
          e.bufferTransfer = { buffer := p, newBuffer := true } →
          (process recordingConvolution recordingReverb true ctx e).1.convolution
              = e.convolution
                ++ [Call.loadImpulseResponse p.buffer p.sampleRate Convolution.Stereo.yes
                      Convolution.Trim.yes Convolution.Normalise.yes,
                    Call.convolutionProcess e.bypass]
            ∧ (process recordingConvolution recordingReverb true ctx e).1.reverb
              = e.reverb ++ [Call.reverbProcess e.bypass]
            ∧ (process recordingConvolution recordingReverb true ctx e).2
              = ctx.block ++ [Call.convolutionProcess e.bypass, Call.reverbProcess e.bypass])
      ∧ (∀ (e : ConvolutionDemoDSP (List Call) (List Call))
          (ctx : ProcessContextReplacing (List Call)) (l : Bool),
          (l = false ∨ e.bufferTransfer.newBuffer = false) →
          (process recordingConvolution recordingReverb l ctx e).1.convolution
              = e.convolution ++ [Call.convolutionProcess e.bypass]
            ∧ (process recordingConvolution recordingReverb l ctx e).1.reverb
              = e.reverb ++ [Call.reverbProcess e.bypass]
            ∧ (process recordingConvolution recordingReverb l ctx e).2
              = ctx.block ++ [Call.convolutionProcess e.bypass, Call.reverbProcess e.bypass]) := by
  refine ⟨rfl, ?_, ?_, ?_, ?_⟩
  · intro p hp
    have h := process_delivered cv rv context d p hp
    refine ⟨h.1, ?_, h.2.2⟩
    rw [h.2.1]
  · intro h
    exact process_not_delivered cv rv isLocked context d h
  · intro e ctx p hp
    have h := process_delivered recordingConvolution recordingReverb ctx e p hp
    refine ⟨?_, ?_, process_recorded_block true ctx e⟩
    · rw [h.1]
      simp [recordingConvolution]
    · simp [process, recordingReverb]
  · intro e ctx l h
    have h2 := process_not_delivered recordingConvolution recordingReverb l ctx e h
    refine ⟨?_, ?_, process_recorded_block l ctx e⟩
    · rw [h2.1]
      simp [recordingConvolution]
    · simp [process, recordingReverb]

/-- Witness of C7: with a pending pair and the lock acquired the convolution stage
sees the load of that pair and then its `process`; with the lock not acquired it
sees its `process` only and the pair stays pending. -/
theorem process_probes_once_then_convolves_then_reverberates_witness :
    (process recordingConvolution recordingReverb true ⟨[], false⟩
        { bypassedFront with
          bufferTransfer := { buffer := ⟨⟨1, 1, [[7]]⟩, 48000⟩, newBuffer := true } }).1.convolution
        = [Call.loadImpulseResponse ⟨1, 1, [[7]]⟩ 48000 Convolution.Stereo.yes
              Convolution.Trim.yes Convolution.Normalise.yes,
            Call.convolutionProcess true]
      ∧ (process recordingConvolution recordingReverb false ⟨[], false⟩
          { bypassedFront with
            bufferTransfer := { buffer := ⟨⟨1, 1, [[7]]⟩, 48000⟩, newBuffer := true } }).1.convolution
        = [Call.convolutionProcess true]
      ∧ (process recordingConvolution recordingReverb false ⟨[], false⟩
          { bypassedFront with
            bufferTransfer := { buffer := ⟨⟨1, 1, [[7]]⟩, 48000⟩, newBuffer := true } }).1.bufferTransfer
        = { buffer := ⟨⟨1, 1, [[7]]⟩, 48000⟩, newBuffer := true } :=
  ⟨((process_probes_once_then_convolves_then_reverberates recordingConvolution recordingReverb
        true ⟨[], false⟩ bypassedFront).2.2.2.1
        { bypassedFront with
          bufferTransfer := { buffer := ⟨⟨1, 1, [[7]]⟩, 48000⟩, newBuffer := true } }
        ⟨[], false⟩ ⟨⟨1, 1, [[7]]⟩, 48000⟩ rfl).1,
    ((process_probes_once_then_convolves_then_reverberates recordingConvolution recordingReverb
        false ⟨[], false⟩
        { bypassedFront with
          bufferTransfer := { buffer := ⟨⟨1, 1, [[7]]⟩, 48000⟩, newBuffer := true } }).2.2.2.2
        { bypassedFront with
          bufferTransfer := { buffer := ⟨⟨1, 1, [[7]]⟩, 48000⟩, newBuffer := true } }
        ⟨[], false⟩ false (Or.inl rfl)).1,
    ((process_probes_once_then_convolves_then_reverberates recordingConvolution recordingReverb
        false ⟨[], false⟩
        { bypassedFront with
          bufferTransfer := { buffer := ⟨⟨1, 1, [[7]]⟩, 48000⟩, newBuffer := true } }).2.2.1
        (Or.inl rfl)).2.1⟩


/-! ## updateParameters and the handoff -/

theorem updateParameters_no_choice {C R : Type} (env : Assets) (d : ConvolutionDemoDSP C R)
    (h : ∀ q, d.parameters.head? ≠ some (DSPDemoParameterBase.choice q)) :
    updateParameters env d = (d, true) := by
  unfold updateParameters
  split
  · rename_i q hq
    exact absurd hq (h q)
  · rfl

theorem updateParameters_slot_cases {C R : Type} (env : Assets) (d : ConvolutionDemoDSP C R)
    (p : ChoiceParameter) (rest : List DSPDemoParameterBase)
    (hp : d.parameters = DSPDemoParameterBase.choice p :: rest) :
    (updateParameters env d).1.bufferTransfer = d.bufferTransfer
      ∨ (p.currentSelectedID ≠ 1 ∧ ∃ st reader,
          env.createAssetInputStream (assetName p.currentSelectedID) = some st
            ∧ env.createReaderFor st = some reader
            ∧ (updateParameters env d).1.bufferTransfer
              = { buffer := { buffer := readBuffer reader, sampleRate := reader.sampleRate },
                  newBuffer := true }) := by
  by_cases hid : p.currentSelectedID = 1
  · left
    rw [updateParameters_bypass env d p rest hp hid]
  · rcases hs : env.createAssetInputStream (assetName p.currentSelectedID) with _ | st
    · left
      rw [updateParameters_missing env d p rest hp hid hs]
    · rcases hr : env.createReaderFor st with _ | reader
      · left
        rw [updateParameters_undecodable env d p rest st hp hid hs hr]
      · right
        refine ⟨hid, st, reader, rfl, hr, ?_⟩
        rw [updateParameters_decoded env d p rest st reader hp hid hs hr]
        rfl

/-- C8. `updateParameters` publishes exactly when the selection is not the bypass
id and the asset is both found and decoded. On id 1 the result is the same for
every installation (no lookup, no decode) and the slot is as before; when the
lookup or the decode fails the slot is as before; when both succeed the slot is
the result of one `set` of the decoded buffer (the reader's channel count and
length as converted by `static_cast<int>`, which are the reader's own whenever
they fit in an `int`, filled by `read` from sample 0) with the reader's sample
rate. So the slot changes only on success, and on an empty slot `newBuffer`
becomes true exactly on success. The engines are never touched. -/
theorem updateParameters_publishes_iff_decoded {C R : Type} (env : Assets)
    (d : ConvolutionDemoDSP C R) (p : ChoiceParameter) (rest : List DSPDemoParameterBase)
    (hp : d.parameters = DSPDemoParameterBase.choice p :: rest) :
    (p.currentSelectedID = 1 →
        (∀ env2 : Assets, updateParameters env2 d = ({ d with bypass := true }, false))
          ∧ (updateParameters env d).1.bufferTransfer = d.bufferTransfer)
      ∧ (p.currentSelectedID ≠ 1 →
          env.createAssetInputStream (assetName p.currentSelectedID) = none →
          (updateParameters env d).1.bufferTransfer = d.bufferTransfer)
      ∧ (∀ st : InputStream, p.currentSelectedID ≠ 1 →
          env.createAssetInputStream (assetName p.currentSelectedID) = some st →
          env.createReaderFor st = none →
          (updateParameters env d).1.bufferTransfer = d.bufferTransfer)
      ∧ (∀ (st : InputStream) (reader : AudioFormatReader), p.currentSelectedID ≠ 1 →
          env.createAssetInputStream (assetName p.currentSelectedID) = some st →
          env.createReaderFor st = some reader →
          (updateParameters env d).1.bufferTransfer
              = d.bufferTransfer.set
                  { buffer := readBuffer reader, sampleRate := reader.sampleRate }
            ∧ (updateParameters env d).1.bufferTransfer.newBuffer = true
            ∧ (updateParameters env d).1.bufferTransfer.buffer.sampleRate = reader.sampleRate
            ∧ (updateParameters env d).1.bufferTransfer.buffer.buffer
              = { numChannels := static_cast_int reader.numChannels,
                  numSamples := static_cast_int reader.lengthInSamples,
                  channels := reader.read (static_cast_int reader.numChannels) 0
                    (static_cast_int reader.lengthInSamples) }
            ∧ ((reader.numChannels : Int) < 2 ^ 31 → 0 ≤ reader.lengthInSamples →
                reader.lengthInSamples < 2 ^ 31 →
                (updateParameters env d).1.bufferTransfer.buffer.buffer.numChannels
                    = reader.numChannels
                  ∧ (updateParameters env d).1.bufferTransfer.buffer.buffer.numSamples
                    = reader.lengthInSamples))
      ∧ ((updateParameters env d).1.bufferTransfer ≠ d.bufferTransfer →
          p.currentSelectedID ≠ 1 ∧ ∃ st reader,
            env.createAssetInputStream (assetName p.currentSelectedID) = some st
              ∧ env.createReaderFor st = some reader)
      ∧ (d.bufferTransfer.newBuffer = false →
          ((updateParameters env d).1.bufferTransfer.newBuffer = true ↔
            (p.currentSelectedID ≠ 1 ∧ ∃ st reader,
              env.createAssetInputStream (assetName p.currentSelectedID) = some st
                ∧ env.createReaderFor st = some reader)))
      ∧ (updateParameters env d).1.convolution = d.convolution
      ∧ (updateParameters env d).1.convolutionHP = d.convolutionHP
      ∧ (updateParameters env d).1.reverb = d.reverb
      ∧ (updateParameters env d).1.params = d.params := by
  have heng := updateParameters_engines env d
  refine ⟨?_, ?_, ?_, ?_, ?_, ?_, heng.1, heng.2.1, heng.2.2.1, heng.2.2.2.1⟩
  · intro hid
    refine ⟨fun env2 => updateParameters_bypass env2 d p rest hp hid, ?_⟩
    rw [updateParameters_bypass env d p rest hp hid]
  · intro hid hs
    rw [updateParameters_missing env d p rest hp hid hs]
  · intro st hid hs hr
    rw [updateParameters_undecodable env d p rest st hp hid hs hr]
  · intro st reader hid hs hr
    rw [updateParameters_decoded env d p rest st reader hp hid hs hr]
    refine ⟨rfl, rfl, rfl, rfl, ?_⟩
    intro h1 h2 h3
    refine ⟨?_, ?_⟩
    · show static_cast_int reader.numChannels = reader.numChannels
      exact static_cast_int_of_fits _ (by omega) h1
    · show static_cast_int reader.lengthInSamples = reader.lengthInSamples
      exact static_cast_int_of_fits _ (by omega) h3
  · intro hne
    rcases updateParameters_slot_cases env d p rest hp with h | ⟨hid, st, reader, hs, hr, _⟩
    · exact absurd h hne
    · exact ⟨hid, st, reader, hs, hr⟩
  · intro hnew
    constructor
    · intro htrue
      rcases updateParameters_slot_cases env d p rest hp with h | ⟨hid, st, reader, hs, hr, _⟩
      · rw [h, hnew] at htrue
        exact absurd htrue (by decide)
      · exact ⟨hid, st, reader, hs, hr⟩
    · rintro ⟨hid, st, reader, hs, hr⟩
      rw [updateParameters_decoded env d p rest st reader hp hid hs hr]
      rfl

/-- Witness of C8: the selection is id 2, `front.wav` exists and decodes to two
channels of three samples at 44100 Hz; that buffer and rate are what the slot
holds afterwards. -/
theorem updateParameters_publishes_iff_decoded_witness :
    frontOnly.createAssetInputStream (assetName 2) = some ⟨[82, 73]⟩
      ∧ frontOnly.createReaderFor ⟨[82, 73]⟩ = some frontReader
      ∧ (updateParameters frontOnly bypassedFront).1.bufferTransfer
        = { buffer := ⟨⟨2, 3, [[1, 0, 0], [0, 1, 0]]⟩, 44100⟩, newBuffer := true } :=
  ⟨rfl, rfl,
    ((updateParameters_publishes_iff_decoded frontOnly bypassedFront
        { cabinetParam with currentSelectedID := 2 } [] rfl).2.2.2.1
      ⟨[82, 73]⟩ frontReader (by decide) rfl rfl).1⟩

/-! ## The selection ids -/

/-- C10. The mapping from selection ids to assets covers the choice list: the
declared `cabinetParam` has 13 choices, with ids 1 to 13; `updateParameters`
sets `bypass` exactly when the selected id is 1; every id from 2 to 13 has a
non-empty asset name; these names are pairwise distinct; every id below 1 or
above 13 has the empty asset name. -/
theorem selection_ids_cover_choices :
    cabinetParam.choices.length = 13
      ∧ cabinetParam.ids = [1, 2, 3, 4, 5, 6, 7, 8, 9, 10, 11, 12, 13]
      ∧ (∀ (C R : Type) (env : Assets) (d : ConvolutionDemoDSP C R) (p : ChoiceParameter)
          (rest : List DSPDemoParameterBase),
          d.parameters = DSPDemoParameterBase.choice p :: rest →
          ((updateParameters env d).1.bypass = true ↔ p.currentSelectedID = 1))
      ∧ (∀ id : Int, 2 ≤ id → id ≤ 13 → assetName id ≠ "")
      ∧ (∀ i j : Int, 2 ≤ i → i ≤ 13 → 2 ≤ j → j ≤ 13 → assetName i = assetName j → i = j)
      ∧ (∀ id : Int, id < 1 ∨ 13 < id → assetName id = "") := by
  refine ⟨rfl, by decide, ?_, ?_, ?_, ?_⟩
  · intro C R env d p rest hp
    constructor
    · intro hb
      by_contra hid
      have h : (updateParameters env d).1.bypass = false := by
        rcases hs : env.createAssetInputStream (assetName p.currentSelectedID) with _ | st
        · rw [updateParameters_missing env d p rest hp hid hs]
        · rcases hr : env.createReaderFor st with _ | reader
          · rw [updateParameters_undecodable env d p rest st hp hid hs hr]
          · rw [updateParameters_decoded env d p rest st reader hp hid hs hr]
      rw [h] at hb
      exact absurd hb (by decide)
    · intro hid
      rw [updateParameters_bypass env d p rest hp hid]
  · intro id h1 h2
    interval_cases id <;> decide
  · intro i j h1 h2 h3 h4
    interval_cases i <;> interval_cases j <;> decide
  · intro id h
    unfold assetName
    split <;> first | omega | rfl

/-- Witness of C10: id 2 and id 13 have different, non-empty asset names and id 14
has the empty one. -/
theorem selection_ids_cover_choices_witness :
    assetName 2 ≠ "" ∧ (assetName 2 = assetName 13 → (2 : Int) = 13) ∧ assetName 14 = "" :=
  ⟨selection_ids_cover_choices.2.2.2.1 2 (by decide) (by decide),
    selection_ids_cover_choices.2.2.2.2.1 2 13 (by decide) (by decide) (by decide) (by decide),
    selection_ids_cover_choices.2.2.2.2.2 14 (Or.inr (by decide))⟩


end ConvolutionDemo
